import Mathlib

/-
Shallow embedding of the Windows event-translation and synthetic-input core of
libuiohook, taken from src/windows/input_hook.c and src/windows/post_event.c,
together with theorems checking the natural-language specification against it.

External collaborators (the Windows API calls, the key-translation tables of
input_helper.c, monitor geometry, the dispatch callback and the configured
multi-click interval) are passed as explicit parameters, mirroring the places
where the C code calls out to them.
-/

namespace LibUioHook

/- Modifier mask bits, button identifiers and wheel constants from the public
header include/uiohook.h of this repository (not shipped under src/, values
taken from the upstream header the two source files compile against). -/

def MASK_SHIFT_L : Nat := 1
def MASK_CTRL_L : Nat := 2
def MASK_META_L : Nat := 4
def MASK_ALT_L : Nat := 8
def MASK_SHIFT_R : Nat := 16
def MASK_CTRL_R : Nat := 32
def MASK_META_R : Nat := 64
def MASK_ALT_R : Nat := 128
def MASK_BUTTON1 : Nat := 256
def MASK_BUTTON2 : Nat := 512
def MASK_BUTTON3 : Nat := 1024
def MASK_BUTTON4 : Nat := 2048
def MASK_BUTTON5 : Nat := 4096
def MASK_NUM_LOCK : Nat := 8192
def MASK_CAPS_LOCK : Nat := 16384
def MASK_SCROLL_LOCK : Nat := 32768
def MASK_SHIFT : Nat := MASK_SHIFT_L ||| MASK_SHIFT_R

def MOUSE_NOBUTTON : Nat := 0
def MOUSE_BUTTON1 : Nat := 1
def MOUSE_BUTTON2 : Nat := 2
def MOUSE_BUTTON3 : Nat := 3
def MOUSE_BUTTON4 : Nat := 4
def MOUSE_BUTTON5 : Nat := 5

def WHEEL_UNIT_SCROLL : Nat := 1
def WHEEL_BLOCK_SCROLL : Nat := 2
def WHEEL_VERTICAL_DIRECTION : Nat := 3
def WHEEL_HORIZONTAL_DIRECTION : Nat := 4

/- Windows API constants from winuser.h / limits.h. -/

def WM_MOUSEMOVE : Nat := 0x0200
def WM_LBUTTONDOWN : Nat := 0x0201
def WM_LBUTTONUP : Nat := 0x0202
def WM_RBUTTONDOWN : Nat := 0x0204
def WM_RBUTTONUP : Nat := 0x0205
def WM_MBUTTONDOWN : Nat := 0x0207
def WM_MBUTTONUP : Nat := 0x0208
def WM_MOUSEWHEEL : Nat := 0x020A
def WM_XBUTTONDOWN : Nat := 0x020B
def WM_XBUTTONUP : Nat := 0x020C
def WM_MOUSEHWHEEL : Nat := 0x020E
def WM_NCXBUTTONDOWN : Nat := 0x00AB
def WM_NCXBUTTONUP : Nat := 0x00AC
def XBUTTON1 : Nat := 1
def XBUTTON2 : Nat := 2
def WHEEL_PAGESCROLL : Nat := 4294967295
def USHRT_MAX : Nat := 65535

/- C integer conversions used by the two source files. -/

/-- Truncating C cast to int16_t (wraparound representation). -/
def toInt16 (i : Int) : Int := Int.emod (i + 32768) 65536 - 32768

/-- Truncating C cast to uint16_t. -/
def toUInt16Nat (i : Int) : Nat := (Int.emod i 65536).toNat

/-- HIWORD(x) of a 32-bit DWORD value. -/
def HIWORD (n : Nat) : Nat := (n >>> 16) % 65536

/-- Truncating C cast to a signed 32-bit Windows long (wraparound
representation). -/
def toInt32 (i : Int) : Int := Int.emod (i + 2147483648) 4294967296 - 2147483648

/-- Value of the C expression `(long int) (timestamp - click_time)` as it is
compared against `hook_get_multi_click_time()`.  The subtraction wraps in
uint64_t; the cast truncates those 64 bits to a 32-bit Windows `long`, read as
signed, and the interval getter of uiohook.h returns a signed `long int` as
well, so the comparison is a signed one: a wrapped difference of 2^31 ms or
more reads as a negative value, which the source then treats as within the
interval. -/
def elapsedLong (now last : Nat) : Int :=
  toInt32 (((2 ^ 64 + now - last) % 2 ^ 64 : Nat) : Int)

/- Canonical event model (struct uiohook_event).  The `reserved` consumed flag
is not stored on the event; consumption is reported by the dispatch sink,
modelled as a function from the dispatched event to the consumed bit. -/

inductive EventType where
  | hookEnabled
  | hookDisabled
  | keyPressed
  | keyReleased
  | keyTyped
  | mousePressed
  | mouseReleased
  | mouseClicked
  | mouseMoved
  | mouseDragged
  | mouseWheel
deriving DecidableEq

structure MouseData where
  button : Nat
  clicks : Nat
  x : Int
  y : Int
deriving DecidableEq

structure WheelData where
  clicks : Nat
  x : Int
  y : Int
  type : Nat
  amount : Nat
  rotation : Int
  direction : Nat
deriving DecidableEq

structure KeyboardData where
  keycode : Nat
  rawcode : Nat
  keychar : Nat
deriving DecidableEq

inductive EventData where
  | empty
  | mouse (d : MouseData)
  | wheel (d : WheelData)
  | keyboard (d : KeyboardData)
deriving DecidableEq

structure UioEvent where
  type : EventType
  time : Nat
  mask : Nat
  data : EventData
deriving DecidableEq

/-- Union read of event.data.mouse.button (0 when another payload is active;
the C union overlay for mismatched payloads is not modelled). -/
def UioEvent.mouseButton : UioEvent → Nat
  | { data := .mouse d, .. } => d.button

  | _ => 0

/-- Union read of event.data.mouse.x. -/
def UioEvent.mouseX : UioEvent → Int
  | { data := .mouse d, .. } => d.x

  | _ => 0

/-- Union read of event.data.mouse.y. -/
def UioEvent.mouseY : UioEvent → Int
  | { data := .mouse d, .. } => d.y

  | _ => 0

/-- Union read of event.data.keyboard.keycode. -/
def UioEvent.kbKeycode : UioEvent → Nat
  | { data := .keyboard d, .. } => d.keycode

  | _ => 0

/-- Union read of event.data.wheel.amount. -/
def UioEvent.wheelAmount : UioEvent → Nat
  | { data := .wheel d, .. } => d.amount

  | _ => 0

/-- Union read of event.data.wheel.rotation. -/
def UioEvent.wheelRotation : UioEvent → Int
  | { data := .wheel d, .. } => d.rotation

  | _ => 0

/- Global state of input_hook.c: the modifier mask and the click-tracking
globals (click_count, click_time, click_button, last_click). -/

structure HookState where
  current_modifiers : Nat
  click_count : Nat
  click_time : Nat
  click_button : Nat
  last_click_x : Int
  last_click_y : Int
deriving DecidableEq

/-- Fields of MSLLHOOKSTRUCT read by the mouse hook (pt, mouseData, time). -/
structure MSLLHOOKSTRUCT where
  ptx : Int
  pty : Int
  mouseData : Nat
  time : Nat
deriving DecidableEq

/-- Dispatch sink: invoked on every dispatched event, returns the consumed
flag the callback left in event.reserved (bit 0x01). -/
def Sink : Type := UioEvent → Bool

/-- Function set_modifier_mask: current_modifiers |= mask. -/
def set_modifier_mask (s : HookState) (mask : Nat) : HookState :=
  { s with current_modifiers := s.current_modifiers ||| mask }

/-- Function unset_modifier_mask: current_modifiers &= ~mask, on 16-bit
unsigned operands (the complement is truncated back to 16 bits on store). -/
def unset_modifier_mask (s : HookState) (mask : Nat) : HookState :=
  { s with current_modifiers := s.current_modifiers &&& (65535 ^^^ mask) }

/-- Function get_scroll_wheel_type, over the SPI_GETWHEELSCROLLLINES system
setting passed in as a parameter. -/
def get_scroll_wheel_type (wheelScrollLines : Nat) : Nat :=
  if wheelScrollLines = WHEEL_PAGESCROLL then WHEEL_BLOCK_SCROLL else WHEEL_UNIT_SCROLL

/-- Function get_scroll_wheel_amount, over the same system setting (the UINT
value is truncated to uint16_t in the non-page branch). -/
def get_scroll_wheel_amount (wheelScrollLines : Nat) : Nat :=
  if wheelScrollLines = WHEEL_PAGESCROLL then 1 else wheelScrollLines % 65536

/-- Function process_button_pressed of input_hook.c.  Returns the updated
globals and the list of dispatched events. -/
def process_button_pressed (interval : Nat) (s : HookState) (mshook : MSLLHOOKSTRUCT)
    (button : Nat) : HookState × List UioEvent :=
  let timestamp := mshook.time
  let s1 :=
    if button = s.click_button ∧ elapsedLong timestamp s.click_time ≤ (interval : Int) then
      if s.click_count < USHRT_MAX then
        { s with click_count := s.click_count + 1 }
      else
        s
    else
      { s with click_count := 1, click_button := button }
  let s2 := { s1 with click_time := timestamp,
                      last_click_x := mshook.ptx, last_click_y := mshook.pty }
  let ev : UioEvent :=
    { type := .mousePressed, time := timestamp, mask := s2.current_modifiers,
      data := .mouse { button := button, clicks := s2.click_count,
                       x := toInt16 mshook.ptx, y := toInt16 mshook.pty } }
  (s2, [ev])

/-- Function process_button_released of input_hook.c.  The sink is consulted
for the consumed flag of the dispatched mouse-released event. -/
def process_button_released (interval : Nat) (sink : Sink) (s : HookState)
    (mshook : MSLLHOOKSTRUCT) (button : Nat) : HookState × List UioEvent :=
  let timestamp := mshook.time
  let released : UioEvent :=
    { type := .mouseReleased, time := timestamp, mask := s.current_modifiers,
      data := .mouse { button := button, clicks := s.click_count,
                       x := toInt16 mshook.ptx, y := toInt16 mshook.pty } }
  let reserved := sink released
  let events :=
    if reserved = false ∧ s.last_click_x = mshook.ptx ∧ s.last_click_y = mshook.pty then
      [released, { released with type := .mouseClicked }]
    else
      [released]
  let s1 :=
    if button = s.click_button ∧ (interval : Int) < elapsedLong timestamp s.click_time then
      { s with click_count := 0 }
    else
      s
  (s1, events)

/-- Function process_mouse_moved of input_hook.c. -/
def process_mouse_moved (interval : Nat) (s : HookState) (mshook : MSLLHOOKSTRUCT) :
    HookState × List UioEvent :=
  let timestamp := mshook.time
  if s.last_click_x ≠ mshook.ptx ∨ s.last_click_y ≠ mshook.pty then
    let s1 :=
      if s.click_count ≠ 0 ∧ (interval : Int) < elapsedLong timestamp s.click_time then
        { s with click_count := 0 }
      else
        s
    let mouse_dragged :=
      s1.current_modifiers &&&
        (MASK_BUTTON1 ||| MASK_BUTTON2 ||| MASK_BUTTON3 ||| MASK_BUTTON4 ||| MASK_BUTTON5) ≠ 0
    let ev : UioEvent :=
      { type := if mouse_dragged then .mouseDragged else .mouseMoved,
        time := timestamp, mask := s1.current_modifiers,
        data := .mouse { button := MOUSE_NOBUTTON, clicks := s1.click_count,
                         x := toInt16 mshook.ptx, y := toInt16 mshook.pty } }
    (s1, [ev])
  else
    (s, [])

/-- Function process_mouse_wheel of input_hook.c, over the system wheel-lines
setting.  The raw rotation is HIWORD(mouseData) read as int16_t, negated (with
int16_t truncation on store) for the vertical direction. -/
def process_mouse_wheel (wheelScrollLines : Nat) (s : HookState)
    (mshook : MSLLHOOKSTRUCT) (direction : Nat) : HookState × List UioEvent :=
  let timestamp := mshook.time
  let s1 := { s with click_count := 1, click_button := MOUSE_NOBUTTON }
  let rotation0 := toInt16 (Int.ofNat (HIWORD mshook.mouseData))
  let rotation :=
    if direction = WHEEL_VERTICAL_DIRECTION then toInt16 (-rotation0) else rotation0
  let ev : UioEvent :=
    { type := .mouseWheel, time := timestamp, mask := s1.current_modifiers,
      data := .wheel { clicks := s1.click_count,
                       x := toInt16 mshook.ptx, y := toInt16 mshook.pty,
                       type := get_scroll_wheel_type wheelScrollLines,
                       amount := get_scroll_wheel_amount wheelScrollLines,
                       rotation := rotation, direction := direction } }
  (s1, [ev])

/-- Function mouse_hook_event_proc of input_hook.c, restricted to its effect on
the tracked globals and the dispatched events (the CallNextHookEx decision and
the nCode guard are hook plumbing outside the claims).  The wParam dispatch,
including the extra-button branches of WM_XBUTTONDOWN / WM_XBUTTONUP, is
modelled branch for branch. -/
def mouse_hook_event_proc (interval wheelScrollLines : Nat) (sink : Sink)
    (s : HookState) (wParam : Nat) (mshook : MSLLHOOKSTRUCT) : HookState × List UioEvent :=
  if wParam = WM_LBUTTONDOWN then
    process_button_pressed interval (set_modifier_mask s MASK_BUTTON1) mshook MOUSE_BUTTON1
  else if wParam = WM_RBUTTONDOWN then
    process_button_pressed interval (set_modifier_mask s MASK_BUTTON2) mshook MOUSE_BUTTON2
  else if wParam = WM_MBUTTONDOWN then
    process_button_pressed interval (set_modifier_mask s MASK_BUTTON3) mshook MOUSE_BUTTON3
  else if wParam = WM_XBUTTONDOWN ∨ wParam = WM_NCXBUTTONDOWN then
    if HIWORD mshook.mouseData = XBUTTON1 then
      process_button_pressed interval (set_modifier_mask s MASK_BUTTON4) mshook MOUSE_BUTTON4
    else if HIWORD mshook.mouseData = XBUTTON2 then
      process_button_pressed interval (set_modifier_mask s MASK_BUTTON5) mshook MOUSE_BUTTON5
    else
      let button := HIWORD mshook.mouseData
      let s1 :=
        if button = 4 then set_modifier_mask s MOUSE_BUTTON4
        else if button = 5 then set_modifier_mask s MOUSE_BUTTON5
        else s
      process_button_pressed interval s1 mshook button
  else if wParam = WM_LBUTTONUP then
    process_button_released interval sink (unset_modifier_mask s MASK_BUTTON1) mshook MOUSE_BUTTON1
  else if wParam = WM_RBUTTONUP then
    process_button_released interval sink (unset_modifier_mask s MASK_BUTTON2) mshook MOUSE_BUTTON2
  else if wParam = WM_MBUTTONUP then
    process_button_released interval sink (unset_modifier_mask s MASK_BUTTON3) mshook MOUSE_BUTTON3
  else if wParam = WM_XBUTTONUP ∨ wParam = WM_NCXBUTTONUP then
    if HIWORD mshook.mouseData = XBUTTON1 then
      process_button_released interval sink (unset_modifier_mask s MASK_BUTTON4) mshook MOUSE_BUTTON4
    else if HIWORD mshook.mouseData = XBUTTON2 then
      process_button_released interval sink (unset_modifier_mask s MASK_BUTTON5) mshook MOUSE_BUTTON5
    else
      let button := HIWORD mshook.mouseData
      let s1 :=
        if button = 4 then unset_modifier_mask s MOUSE_BUTTON4
        else if button = 5 then unset_modifier_mask s MOUSE_BUTTON5
        else s
      process_button_released interval sink s1 mshook MOUSE_BUTTON5
  else if wParam = WM_MOUSEMOVE then
    process_mouse_moved interval s mshook
  else if wParam = WM_MOUSEWHEEL then
    process_mouse_wheel wheelScrollLines s mshook WHEEL_VERTICAL_DIRECTION
  else if wParam = WM_MOUSEHWHEEL then
    process_mouse_wheel wheelScrollLines s mshook WHEEL_HORIZONTAL_DIRECTION
  else
    (s, [])

/- Embedding of src/windows/post_event.c: the synthetic input composer. -/

/- Flag constants of the Windows SendInput API (winuser.h). -/

def INPUT_MOUSE : Nat := 0
def INPUT_KEYBOARD : Nat := 1
def KEYEVENTF_EXTENDEDKEY : Nat := 0x0001
def KEYEVENTF_KEYUP : Nat := 0x0002
def KEYEVENTF_KEYDOWN : Nat := 0x0000
def MOUSEEVENTF_MOVE : Nat := 0x0001
def MOUSEEVENTF_LEFTDOWN : Nat := 0x0002
def MOUSEEVENTF_LEFTUP : Nat := 0x0004
def MOUSEEVENTF_RIGHTDOWN : Nat := 0x0008
def MOUSEEVENTF_RIGHTUP : Nat := 0x0010
def MOUSEEVENTF_MIDDLEDOWN : Nat := 0x0020
def MOUSEEVENTF_MIDDLEUP : Nat := 0x0040
def MOUSEEVENTF_XDOWN : Nat := 0x0080
def MOUSEEVENTF_XUP : Nat := 0x0100
def MOUSEEVENTF_WHEEL : Nat := 0x0800
def MOUSEEVENTF_VIRTUALDESK : Nat := 0x4000
def MOUSEEVENTF_ABSOLUTE : Nat := 0x8000

def MAX_WINDOWS_COORD_VALUE : Nat := 1 <<< 16

/-- Table extend_key_table of post_event.c: VK_UP, VK_DOWN, VK_LEFT, VK_RIGHT,
VK_HOME, VK_END, VK_PRIOR, VK_NEXT, VK_INSERT, VK_DELETE. -/
def extend_key_table : List Nat := [0x26, 0x28, 0x25, 0x27, 0x24, 0x23, 0x21, 0x22, 0x2D, 0x2E]

/-- Loop of map_keyboard_event over extend_key_table:
`for (i = 0; i < len && wVk == table[i]; i++) flags |= KEYEVENTF_EXTENDEDKEY;`.
The equality test is fused into the loop condition, so the scan stops at the
first non-matching entry, starting from index 0. -/
def extend_scan (table : List Nat) (wVk : Nat) (flags : Nat) : Nat :=
  match table with
  | [] => flags
  | t :: rest =>
      if wVk = t then extend_scan rest wVk (flags ||| KEYEVENTF_EXTENDEDKEY) else flags

/-- Windows MulDiv, modelled from its documentation and reference
implementation: (a * b) / c computed in 64 bits with truncating C division,
rounded to the nearest integer, returning -1 on a zero divisor or when the
result falls outside the positive/negative 32-bit int range used by the API. -/
def MulDiv (a b c : Int) : Int :=
  if c = 0 then -1
  else
    let a1 := if c < 0 then -a else a
    let c1 := if c < 0 then -c else c
    let p := a1 * b
    let r := if 0 ≤ p then Int.tdiv (p + Int.tdiv c1 2) c1 else Int.tdiv (p - Int.tdiv c1 2) c1
    if r > 2147483647 ∨ r < -2147483647 then -1 else r

/-- Largest negative coordinates across all displays, as returned by
monitor_helper.c (external to the two source files). -/
structure LARGESTNEGATIVECOORDINATES where
  left : Int
  top : Int
deriving DecidableEq

structure NormalizedCoordinate where
  x : Int
  y : Int
deriving DecidableEq

/-- Function get_absolute_coordinate of post_event.c. -/
def get_absolute_coordinate (coordinate : Int) (screen_size : Int) : Int :=
  MulDiv coordinate (MAX_WINDOWS_COORD_VALUE : Int) screen_size

/-- Function normalize_coordinates of post_event.c: offset by the absolute
value of the most negative display coordinate, nudge an exact 0 by one unit,
then rescale into the 2^16 injection range. -/
def normalize_coordinates (x y : Int) (screen_width screen_height : Int)
    (lnc : LARGESTNEGATIVECOORDINATES) : NormalizedCoordinate :=
  let x1 := x + |lnc.left|
  let y1 := y + |lnc.top|
  let x2 := if x1 = 0 then x1 + 1 else x1
  let y2 := if y1 = 0 then y1 + 1 else y1
  { x := get_absolute_coordinate x2 screen_width,
    y := get_absolute_coordinate y2 screen_height }

/-- Status codes returned by the posting path (uiohook.h): UIOHOOK_SUCCESS,
UIOHOOK_FAILURE and UIOHOOK_ERROR_OUT_OF_MEMORY. -/
inductive Status where
  | success
  | failure
  | errorOutOfMemory
deriving DecidableEq

/-- Fields of the Windows INPUT structure populated by post_event.c (the
keyboard and mouse sub-structs are flattened; calloc zero-initializes). -/
structure INPUT where
  type : Nat
  dwFlags : Nat
  dx : Int
  dy : Int
  mouseData : Nat
  wVk : Nat
  wScan : Nat
deriving DecidableEq

def INPUT.zero : INPUT :=
  { type := 0, dwFlags := 0, dx := 0, dy := 0, mouseData := 0, wVk := 0, wScan := 0 }

/-- External environment of post_event.c: virtual-screen metrics
(GetSystemMetrics), monitor offsets, the key-translation table
(scancode_to_keycode of input_helper.c), MapVirtualKeyW and the SendInput
injection call, the last modelled as a function from the composed request to
its success bit. -/
structure PostEnv where
  metricCx : Int
  metricCy : Int
  lnc : LARGESTNEGATIVECOORDINATES
  scancode_to_keycode : Nat → Nat
  mapVirtualKey : Nat → Nat
  sendInput : INPUT → Bool

/-- Value of `amount * rotation` stored into the DWORD mouseData field for a
wheel event: int product converted to a 32-bit unsigned value. -/
def wheelMouseData (amount : Nat) (rotation : Int) : Nat :=
  (Int.emod ((amount : Int) * rotation) 4294967296).toNat

/-- Function map_keyboard_event of post_event.c.  Returns the status and the
composed INPUT request. -/
def map_keyboard_event (env : PostEnv) (ev : UioEvent) (input0 : INPUT) : Status × INPUT :=
  let input1 := { input0 with type := INPUT_KEYBOARD }
  if ev.type = .keyPressed ∨ ev.type = .keyReleased then
    let input2 :=
      { input1 with
        dwFlags := if ev.type = EventType.keyPressed then KEYEVENTF_KEYDOWN else KEYEVENTF_KEYUP }
    let wVk := env.scancode_to_keycode ev.kbKeycode % 65536
    let input3 := { input2 with wVk := wVk }
    if wVk = 0 then
      (.failure, input3)
    else
      let input4 := { input3 with wScan := env.mapVirtualKey wVk }
      let input5 :=
        if ev.mask &&& MASK_SHIFT ≠ 0 then
          { input4 with dwFlags := extend_scan extend_key_table wVk input4.dwFlags }
        else
          input4
      (.success, input5)
  else
    (.failure, input1)

/-- Injection request composed for a mouse move with absolute positioning:
fresh zeroed INPUT, mouse type, normalized coordinates and the
absolute/move/virtual-desktop flags. -/
def moveInput (env : PostEnv) (ev : UioEvent) : INPUT :=
  { INPUT.zero with
      type := INPUT_MOUSE,
      dx := (normalize_coordinates ev.mouseX ev.mouseY
          (toUInt16Nat env.metricCx) (toUInt16Nat env.metricCy) env.lnc).x,
      dy := (normalize_coordinates ev.mouseX ev.mouseY
          (toUInt16Nat env.metricCx) (toUInt16Nat env.metricCy) env.lnc).y,
      dwFlags := MOUSEEVENTF_ABSOLUTE ||| MOUSEEVENTF_MOVE ||| MOUSEEVENTF_VIRTUALDESK }

/-- Models the recursive hook_post_event call that map_mouse_event issues for
the preliminary cursor move.  At that call site the type field of the event has just been
set to EVENT_MOUSE_MOVED, for which do_hook_post_event allocates a fresh INPUT,
maps it (absolute-move flags, coordinates normalized because move_mouse is
true) and issues one SendInput call whose failure sets the status of this
inner frame; this definition inlines exactly that path.  Agreement with
do_hook_post_event on mouse-moved events is proved below
(post_move_event_models_moved_post). -/
def post_move_event (env : PostEnv) (allocOk : Bool) (ev : UioEvent) : Status × List INPUT :=
  if allocOk = false then
    (.errorOutOfMemory, [])
  else
    ((if env.sendInput (moveInput env ev) then Status.success else Status.failure),
     [moveInput env ev])

/-- Function map_mouse_event of post_event.c.  Returns the status, the
composed INPUT request, the event as left on return (the source temporarily
retypes it around the preliminary move), and the injections performed by the
inner hook_post_event call for that move (whose returned status the source
discards, see the TODO at its call sites). -/
def map_mouse_event (env : PostEnv) (allocOk : Bool) (ev : UioEvent) (input0 : INPUT)
    (move_mouse : Bool) : Status × INPUT × UioEvent × List INPUT :=
  let input1 := { input0 with type := INPUT_MOUSE, mouseData := 0 }
  let input2 :=
    if move_mouse then
      let nc := normalize_coordinates ev.mouseX ev.mouseY
          (toUInt16Nat env.metricCx) (toUInt16Nat env.metricCy) env.lnc
      { input1 with dx := nc.x, dy := nc.y }
    else
      input1
  if ev.type = .mousePressed then
    if ev.mouseButton = MOUSE_NOBUTTON then
      (.failure, input2, ev, [])
    else
      let input3 :=
        if ev.mouseButton = MOUSE_BUTTON1 then { input2 with dwFlags := MOUSEEVENTF_LEFTDOWN }
        else if ev.mouseButton = MOUSE_BUTTON2 then { input2 with dwFlags := MOUSEEVENTF_RIGHTDOWN }
        else if ev.mouseButton = MOUSE_BUTTON3 then { input2 with dwFlags := MOUSEEVENTF_MIDDLEDOWN }
        else
          { input2 with
            dwFlags := MOUSEEVENTF_XDOWN,
            mouseData :=
              if ev.mouseButton = MOUSE_BUTTON4 then XBUTTON1
              else if ev.mouseButton = MOUSE_BUTTON5 then XBUTTON2
              else ev.mouseButton - 3 }
      if move_mouse then
        let ev1 := { ev with type := .mouseMoved }
        let inner := post_move_event env allocOk ev1
        let ev2 := { ev1 with type := .mousePressed }
        (.success, input3, ev2, inner.2)
      else
        (.success, input3, ev, [])
  else if ev.type = .mouseReleased then
    if ev.mouseButton = MOUSE_NOBUTTON then
      (.failure, input2, ev, [])
    else
      let input3 :=
        if ev.mouseButton = MOUSE_BUTTON1 then { input2 with dwFlags := MOUSEEVENTF_LEFTUP }
        else if ev.mouseButton = MOUSE_BUTTON2 then { input2 with dwFlags := MOUSEEVENTF_RIGHTUP }
        else if ev.mouseButton = MOUSE_BUTTON3 then { input2 with dwFlags := MOUSEEVENTF_MIDDLEUP }
        else
          { input2 with
            dwFlags := MOUSEEVENTF_XUP,
            mouseData :=
              if ev.mouseButton = MOUSE_BUTTON4 then XBUTTON1
              else if ev.mouseButton = MOUSE_BUTTON5 then XBUTTON2
              else ev.mouseButton - 3 }
      if move_mouse then
        let ev1 := { ev with type := .mouseMoved }
        let inner := post_move_event env allocOk ev1
        let ev2 := { ev1 with type := .mousePressed }
        (.success, input3, ev2, inner.2)
      else
        (.success, input3, ev, [])
  else if ev.type = .mouseWheel then
    (.success,
     { input2 with
       dwFlags := MOUSEEVENTF_WHEEL,
       mouseData := wheelMouseData ev.wheelAmount ev.wheelRotation },
     ev, [])
  else if ev.type = .mouseDragged ∨ ev.type = .mouseMoved then
    (.success,
     { input2 with dwFlags := MOUSEEVENTF_ABSOLUTE ||| MOUSEEVENTF_MOVE ||| MOUSEEVENTF_VIRTUALDESK },
     ev, [])
  else
    (.failure, input2, ev, [])

/-- Function do_hook_post_event of post_event.c.  allocOk models the calloc of
the INPUT buffer (the same outcome is used for the nested allocation of the
preliminary-move frame).  Returns the status, the event of the caller as left on
return, and the list of SendInput calls attempted, in order. -/
def do_hook_post_event (env : PostEnv) (allocOk : Bool) (ev : UioEvent)
    (move_mouse : Bool) : Status × UioEvent × List INPUT :=
  if allocOk = false then
    (.errorOutOfMemory, ev, [])
  else
    let mapped : Status × INPUT × UioEvent × List INPUT :=
      match ev.type with
      | .keyPressed | .keyReleased =>
          ((map_keyboard_event env ev INPUT.zero).1,
           (map_keyboard_event env ev INPUT.zero).2, ev, [])
      | .mousePressed | .mouseReleased | .mouseWheel | .mouseMoved | .mouseDragged =>
          map_mouse_event env allocOk ev INPUT.zero move_mouse
      | _ => (.failure, INPUT.zero, ev, [])
    if mapped.1 = .success then
      ((if env.sendInput mapped.2.1 then Status.success else Status.failure),
       mapped.2.2.1, mapped.2.2.2 ++ [mapped.2.1])
    else
      (mapped.1, mapped.2.2.1, mapped.2.2.2)

/-- Function hook_post_event of post_event.c (posts with cursor move). -/
def hook_post_event (env : PostEnv) (allocOk : Bool) (ev : UioEvent) :
    Status × UioEvent × List INPUT :=
  do_hook_post_event env allocOk ev true

/-- Function hook_post_event_dont_move_mouse of post_event.c. -/
def hook_post_event_dont_move_mouse (env : PostEnv) (allocOk : Bool) (ev : UioEvent) :
    Status × UioEvent × List INPUT :=
  do_hook_post_event env allocOk ev false

/-- Spec-side step 1 of coordinate normalization: add the absolute value of
the most negative coordinate across all displays. -/
def spec_offset (c mostNegative : Int) : Int := c + |mostNegative|

/-- Spec-side step 2: increment a coordinate that equals exactly 0 by one
unit. -/
def spec_nudge (c : Int) : Int := if c = 0 then c + 1 else c

/-- Spec-side step 3: linear rescale logical * INJECTION_RANGE /
screen_dimension with INJECTION_RANGE = 2^16, realized by the
round-to-nearest MulDiv division of the injection API. -/
def spec_rescale (c dim : Int) : Int := MulDiv c (2 ^ 16) dim

/-- Concrete environment for the closed evaluation theorems: a 1920 x 1080
virtual screen with no negative display offsets, constant translation oracles
and an injection call that always succeeds. -/
def testEnv : PostEnv :=
  { metricCx := 1920, metricCy := 1080, lnc := { left := 0, top := 0 },
    scancode_to_keycode := fun _ => 0x26, mapVirtualKey := fun _ => 17,
    sendInput := fun _ => true }

/-- Mouse-released event populated by process_button_released before the click
tracking is updated: it carries the click count currently held. -/
@[reducible] def releasedEvent (s : HookState) (m : MSLLHOOKSTRUCT) (button : Nat) : UioEvent :=
  { type := .mouseReleased, time := m.time, mask := s.current_modifiers,
    data := .mouse { button := button, clicks := s.click_count,
                     x := toInt16 m.ptx, y := toInt16 m.pty } }

/-- The signed 32-bit reading of the wrapped 64-bit difference equals the
plain difference whenever the timestamps are ordered and their gap stays
below 2^31 (beyond that the signed truncation makes the code read the gap as
negative, a different behavior not covered by the claims). -/
theorem elapsedLong_eq {now last : Nat} (hle : last ≤ now) (hfit : now - last < 2 ^ 31) :
    elapsedLong now last = ((now - last : Nat) : Int) := by
  unfold elapsedLong toInt32
  have h1 : (2 ^ 64 + now - last) % 2 ^ 64 = now - last := by
    have h2 : 2 ^ 64 + now - last = 2 ^ 64 + (now - last) := by omega
    rw [h2, Nat.add_mod_left, Nat.mod_eq_of_lt (by omega)]
  rw [h1]
  have h3 : ((now - last : Nat) : Int) + 2147483648 < 4294967296 := by
    have h4 : ((now - last : Nat) : Int) < 2 ^ 31 := by exact_mod_cast hfit
    omega
  have h5 : 0 ≤ ((now - last : Nat) : Int) + 2147483648 := by positivity
  have h6 : Int.emod (((now - last : Nat) : Int) + 2147483648) 4294967296
      = ((now - last : Nat) : Int) + 2147483648 := Int.emod_eq_of_lt h5 h3
  rw [h6]
  ring

/-- The inlined preliminary-move frame agrees with do_hook_post_event on
mouse-moved events: post_move_event is exactly the recursive hook_post_event
call of map_mouse_event. -/
theorem post_move_event_models_moved_post (env : PostEnv) (allocOk : Bool) (ev : UioEvent)
    (h : ev.type = .mouseMoved) :
    hook_post_event env allocOk ev =
      ((post_move_event env allocOk ev).1, ev, (post_move_event env allocOk ev).2) := by
  unfold hook_post_event do_hook_post_event map_mouse_event post_move_event moveInput
  cases allocOk
  · simp [h, INPUT.zero]
  · simp [h, INPUT.zero]

/-- C1: for every button-press notification, if the button equals the last
tracked button and the elapsed time since the last press is at most the
configured multi-click interval, the click count is incremented, saturating at
the 16-bit unsigned maximum; otherwise the click count is reset to 1 and the
new button is recorded as last button.  In both cases the press timestamp and
press position are recorded (and the dispatched MousePressed event carries the
updated count).  Stated for a monotone timestamp whose gap since the last
press stays below 2^31 ms, the region where the signed 32-bit truncation the
C comparison performs is the identity. -/
theorem C1_button_pressed_spec (interval : Nat) (s : HookState) (m : MSLLHOOKSTRUCT)
    (button : Nat) (hmono : s.click_time ≤ m.time) (hfit : m.time - s.click_time < 2 ^ 31)
    (hcap : s.click_count ≤ USHRT_MAX) :
    ((button = s.click_button ∧ m.time - s.click_time ≤ interval) →
        (process_button_pressed interval s m button).1.click_count
            = min (s.click_count + 1) USHRT_MAX
          ∧ (process_button_pressed interval s m button).1.click_button = s.click_button)
    ∧ (¬ (button = s.click_button ∧ m.time - s.click_time ≤ interval) →
        (process_button_pressed interval s m button).1.click_count = 1
          ∧ (process_button_pressed interval s m button).1.click_button = button)
    ∧ (process_button_pressed interval s m button).1.click_time = m.time
    ∧ (process_button_pressed interval s m button).1.last_click_x = m.ptx
    ∧ (process_button_pressed interval s m button).1.last_click_y = m.pty
    ∧ (process_button_pressed interval s m button).2
        = [{ type := .mousePressed, time := m.time, mask := s.current_modifiers,
             data := .mouse { button := button,
                              clicks := (process_button_pressed interval s m button).1.click_count,
                              x := toInt16 m.ptx, y := toInt16 m.pty } }] := by
  have he : elapsedLong m.time s.click_time = ((m.time - s.click_time : Nat) : Int) :=
    elapsedLong_eq hmono hfit
  refine ⟨fun hc => ⟨?_, ?_⟩, fun hc => ⟨?_, ?_⟩, rfl, rfl, rfl, ?_⟩
  · simp only [process_button_pressed, he, Nat.cast_le]
    rw [if_pos hc]
    by_cases hlt : s.click_count < USHRT_MAX
    · rw [if_pos hlt]
      show s.click_count + 1 = min (s.click_count + 1) USHRT_MAX
      omega
    · rw [if_neg hlt]
      show s.click_count = min (s.click_count + 1) USHRT_MAX
      omega
  · simp only [process_button_pressed, he, Nat.cast_le]
    rw [if_pos hc]
    by_cases hlt : s.click_count < USHRT_MAX
    · rw [if_pos hlt]
    · rw [if_neg hlt]
  · simp only [process_button_pressed, he, Nat.cast_le]
    rw [if_neg hc]
  · simp only [process_button_pressed, he, Nat.cast_le]
    rw [if_neg hc]
  · simp only [process_button_pressed, he, Nat.cast_le]
    by_cases hc : button = s.click_button ∧ m.time - s.click_time ≤ interval
    · rw [if_pos hc]
      by_cases hlt : s.click_count < USHRT_MAX
      · rw [if_pos hlt]
      · rw [if_neg hlt]
    · rw [if_neg hc]

/-- C1 witness: a same-button press 200 ms after the previous press, with a
500 ms interval, increments the click count from 1 to 2. -/
theorem C1_button_pressed_witness :
    (process_button_pressed 500 ⟨0, 1, 100, 1, 3, 4⟩ ⟨3, 4, 0, 300⟩ 1).1.click_count = 2 := by
  have h := C1_button_pressed_spec 500 ⟨0, 1, 100, 1, 3, 4⟩ ⟨3, 4, 0, 300⟩ 1
      (by decide) (by decide) (by decide)
  rw [(h.1 (by decide)).1]
  decide

/-- C2: for every button-release notification, a MouseReleased event carrying
the current click count (not recomputed) is dispatched first; a MouseClicked
event with the same click count follows exactly when the Released event was
not consumed by the sink and the release position equals the last recorded
press position; finally the click count is reset to 0 exactly when the button
matches the tracked press and the elapsed time exceeds the multi-click
interval, and no other tracked state changes.  A release with no tracked press
still emits Released with whatever click count is held.  Stated for a monotone
timestamp whose gap stays below 2^31 ms, where the signed 32-bit truncation of
the C comparison is the identity. -/
theorem C2_button_released_spec (interval : Nat) (sink : Sink) (s : HookState)
    (m : MSLLHOOKSTRUCT) (button : Nat)
    (hmono : s.click_time ≤ m.time) (hfit : m.time - s.click_time < 2 ^ 31) :
    ((process_button_released interval sink s m button).2.head?
        = some (releasedEvent s m button))
    ∧ ((process_button_released interval sink s m button).2
          = [releasedEvent s m button,
             { releasedEvent s m button with type := .mouseClicked }]
        ↔ (sink (releasedEvent s m button) = false
            ∧ s.last_click_x = m.ptx ∧ s.last_click_y = m.pty))
    ∧ (¬ (sink (releasedEvent s m button) = false
            ∧ s.last_click_x = m.ptx ∧ s.last_click_y = m.pty) →
        (process_button_released interval sink s m button).2 = [releasedEvent s m button])
    ∧ (process_button_released interval sink s m button).1.click_count
        = (if button = s.click_button ∧ interval < m.time - s.click_time then 0
           else s.click_count)
    ∧ (process_button_released interval sink s m button).1
        = { s with click_count :=
              (process_button_released interval sink s m button).1.click_count } := by
  have he : elapsedLong m.time s.click_time = ((m.time - s.click_time : Nat) : Int) :=
    elapsedLong_eq hmono hfit
  refine ⟨?_, ?_, ?_, ?_, ?_⟩
  · simp only [process_button_released]
    by_cases hcl : sink (releasedEvent s m button) = false
        ∧ s.last_click_x = m.ptx ∧ s.last_click_y = m.pty
    · rw [if_pos hcl]
      rfl
    · rw [if_neg hcl]
      rfl
  · simp only [process_button_released]
    by_cases hcl : sink (releasedEvent s m button) = false
        ∧ s.last_click_x = m.ptx ∧ s.last_click_y = m.pty
    · rw [if_pos hcl]
      exact iff_of_true rfl hcl
    · rw [if_neg hcl]
      exact iff_of_false (fun hEq => by simp at hEq) hcl
  · intro hn
    simp only [process_button_released]
    rw [if_neg hn]
  · simp only [process_button_released, he, Nat.cast_lt]
    by_cases hrs : button = s.click_button ∧ interval < m.time - s.click_time
    · simp only [if_pos hrs]
    · simp only [if_neg hrs]
  · simp only [process_button_released, he, Nat.cast_lt]
    by_cases hrs : button = s.click_button ∧ interval < m.time - s.click_time
    · simp only [if_pos hrs]
    · simp only [if_neg hrs]

/-- C2 witness: an unconsumed release at the recorded press position emits
Released then Clicked, both with the held click count 2, and the count is kept
because only 40 ms elapsed against a 500 ms interval. -/
theorem C2_button_released_witness :
    ((process_button_released 500 (fun _ => false) ⟨0, 2, 100, 1, 3, 4⟩ ⟨3, 4, 0, 140⟩ 1).2
        = [releasedEvent ⟨0, 2, 100, 1, 3, 4⟩ ⟨3, 4, 0, 140⟩ 1,
           { releasedEvent ⟨0, 2, 100, 1, 3, 4⟩ ⟨3, 4, 0, 140⟩ 1 with type := .mouseClicked }])
    ∧ (process_button_released 500 (fun _ => false) ⟨0, 2, 100, 1, 3, 4⟩ ⟨3, 4, 0, 140⟩ 1).1.click_count
        = 2 := by
  have h := C2_button_released_spec 500 (fun _ => false) ⟨0, 2, 100, 1, 3, 4⟩ ⟨3, 4, 0, 140⟩ 1
      (by decide) (by decide)
  refine ⟨h.2.1.mpr ⟨rfl, by decide, by decide⟩, ?_⟩
  rw [h.2.2.2.1]
  decide

/-- C3: for every mouse-move notification, if the new position equals the last
recorded click position no event is emitted; otherwise the click count is
first reset to 0 when a click streak is active and the multi-click interval
has elapsed since the last press, and exactly one event is dispatched, of type
MouseDragged iff any of the mouse-button bits 1-5 is set in the current
modifier mask, else MouseMoved.  Stated for a monotone timestamp whose gap
stays below 2^31 ms, where the signed 32-bit truncation of the C comparison
is the identity. -/
theorem C3_mouse_moved_spec (interval : Nat) (s : HookState) (m : MSLLHOOKSTRUCT)
    (hmono : s.click_time ≤ m.time) (hfit : m.time - s.click_time < 2 ^ 31) :
    ((s.last_click_x = m.ptx ∧ s.last_click_y = m.pty) →
        process_mouse_moved interval s m = (s, []))
    ∧ (¬ (s.last_click_x = m.ptx ∧ s.last_click_y = m.pty) →
        (process_mouse_moved interval s m).1.click_count
            = (if s.click_count ≠ 0 ∧ interval < m.time - s.click_time then 0
               else s.click_count)
          ∧ (process_mouse_moved interval s m).1
              = { s with click_count := (process_mouse_moved interval s m).1.click_count }
          ∧ (process_mouse_moved interval s m).2.length = 1
          ∧ ∀ e ∈ (process_mouse_moved interval s m).2,
              e.type = (if s.current_modifiers &&&
                  (MASK_BUTTON1 ||| MASK_BUTTON2 ||| MASK_BUTTON3 ||| MASK_BUTTON4 ||| MASK_BUTTON5) ≠ 0
                then EventType.mouseDragged else EventType.mouseMoved)) := by
  have he : elapsedLong m.time s.click_time = ((m.time - s.click_time : Nat) : Int) :=
    elapsedLong_eq hmono hfit
  constructor
  · intro hpos
    have hcond : ¬ (s.last_click_x ≠ m.ptx ∨ s.last_click_y ≠ m.pty) := by
      push_neg
      exact hpos
    simp only [process_mouse_moved]
    rw [if_neg hcond]
  · intro hpos
    have hcond : s.last_click_x ≠ m.ptx ∨ s.last_click_y ≠ m.pty := by
      by_contra hn
      push_neg at hn
      exact hpos hn
    refine ⟨?_, ?_, ?_, ?_⟩
    · simp only [process_mouse_moved, he, Nat.cast_lt]
      rw [if_pos hcond]
      by_cases hrs : s.click_count ≠ 0 ∧ interval < m.time - s.click_time
      · simp only [if_pos hrs]
      · simp only [if_neg hrs]
    · simp only [process_mouse_moved, he, Nat.cast_lt]
      rw [if_pos hcond]
      by_cases hrs : s.click_count ≠ 0 ∧ interval < m.time - s.click_time
      · simp only [if_pos hrs]
      · simp only [if_neg hrs]
    · simp only [process_mouse_moved]
      rw [if_pos hcond]
      rfl
    · simp only [process_mouse_moved, he, Nat.cast_lt]
      rw [if_pos hcond]
      by_cases hrs : s.click_count ≠ 0 ∧ interval < m.time - s.click_time
      · rw [if_pos hrs]
        intro e hin
        simp only [List.mem_singleton] at hin
        subst hin
        rfl
      · rw [if_neg hrs]
        intro e hin
        simp only [List.mem_singleton] at hin
        subst hin
        rfl

/-- C3 witness: a move away from the last click position while button 1 is
held (mask bit MASK_BUTTON1) dispatches exactly one MouseDragged event and
keeps the click count, 30 ms into a 500 ms interval. -/
theorem C3_mouse_moved_witness :
    ((process_mouse_moved 500 ⟨256, 2, 100, 1, 3, 4⟩ ⟨9, 9, 0, 130⟩).2.length = 1)
    ∧ (∀ e ∈ (process_mouse_moved 500 ⟨256, 2, 100, 1, 3, 4⟩ ⟨9, 9, 0, 130⟩).2,
        e.type = EventType.mouseDragged)
    ∧ (process_mouse_moved 500 ⟨256, 2, 100, 1, 3, 4⟩ ⟨9, 9, 0, 130⟩).1.click_count = 2 := by
  have h := (C3_mouse_moved_spec 500 ⟨256, 2, 100, 1, 3, 4⟩ ⟨9, 9, 0, 130⟩
      (by decide) (by decide)).2 (by decide)
  refine ⟨h.2.2.1, ?_, ?_⟩
  · intro e hin
    have := h.2.2.2 e hin
    simpa using this
  · rw [h.1]
    decide

/-- C4: the claim states that every processing step, including the
extra-button paths of the mouse hook procedure, keeps the mask bit of every
tracked key equal to its held state.  The code violates it: the extra-button press
path calls set_modifier_mask with the button NUMBER (MOUSE_BUTTON4 = 4) where
a mask BIT (MASK_BUTTON4 = 2048) is expected, so a press of extra button 4
sets MASK_META_L (value 4) and leaves MASK_BUTTON4 clear.  Evaluation of the
failing input: WM_XBUTTONDOWN with HIWORD(mouseData) = 4 from a zero mask. -/
theorem C4_extra_button_mask_code_bug :
    ((mouse_hook_event_proc 500 3 (fun _ => false) ⟨0, 0, 0, 0, 0, 0⟩
        WM_XBUTTONDOWN ⟨5, 6, 262144, 1000⟩).1.current_modifiers = MASK_META_L)
    ∧ MASK_META_L ≠ MASK_BUTTON4
    ∧ ((mouse_hook_event_proc 500 3 (fun _ => false) ⟨0, 0, 0, 0, 0, 0⟩
        WM_XBUTTONDOWN ⟨5, 6, 262144, 1000⟩).1.current_modifiers &&& MASK_BUTTON4 = 0) := by
  decide

/-- C5: counterexample to the claim as stated.  With click count 3 held for
button 1, a wheel event sets the click count to 1 (not 0), and a move away
from the last click position within the multi-click interval (60 ms elapsed
against 500 ms) leaves the click count at 3 (not 0). -/
theorem C5_counterexample :
    ((process_mouse_wheel 3 ⟨0, 3, 100, 1, 10, 20⟩ ⟨10, 20, 7864320, 160⟩
        WHEEL_VERTICAL_DIRECTION).1.click_count = 1)
    ∧ ((process_mouse_moved 500 ⟨0, 3, 100, 1, 10, 20⟩ ⟨30, 40, 0, 160⟩).1.click_count = 3) := by
  decide

/-- C5 (amended): the click count resets to 0 on a move away from the last
click position only when it is nonzero and the multi-click interval has
elapsed since the last press; a wheel event sets the click count to 1 (not 0)
and resets the tracked click button to the none sentinel, so any subsequent
press of a real button starts a fresh streak with count 1.  The move-away
clause is stated for a monotone timestamp whose gap stays below 2^31 ms,
where the signed 32-bit truncation of the C comparison is the identity. -/
theorem C5_amended_spec (interval wheelScrollLines : Nat) (sw : HookState)
    (mw m2 : MSLLHOOKSTRUCT) (d : Nat) (sm : HookState) (mm : MSLLHOOKSTRUCT) (button : Nat)
    (hmono : sm.click_time ≤ mm.time) (hfit : mm.time - sm.click_time < 2 ^ 31)
    (hb : button ≠ MOUSE_NOBUTTON) :
    ((process_mouse_wheel wheelScrollLines sw mw d).1.click_count = 1
      ∧ (process_mouse_wheel wheelScrollLines sw mw d).1.click_button = MOUSE_NOBUTTON)
    ∧ ((process_button_pressed interval (process_mouse_wheel wheelScrollLines sw mw d).1
          m2 button).1.click_count = 1)
    ∧ (¬ (sm.last_click_x = mm.ptx ∧ sm.last_click_y = mm.pty) →
        (process_mouse_moved interval sm mm).1.click_count
          = (if sm.click_count ≠ 0 ∧ interval < mm.time - sm.click_time then 0
             else sm.click_count)) := by
  refine ⟨⟨rfl, rfl⟩, ?_, ?_⟩
  · have hbne : ¬ (button = ((process_mouse_wheel wheelScrollLines sw mw d).1).click_button
        ∧ elapsedLong m2.time ((process_mouse_wheel wheelScrollLines sw mw d).1).click_time
            ≤ (interval : Int)) := by
      intro hcontra
      exact hb hcontra.1
    simp only [process_button_pressed, if_neg hbne]
  · intro hpos
    exact ((C3_mouse_moved_spec interval sm mm hmono hfit).2 hpos).1

/-- C5 witness: wheel while count is 3 for button 1 resets tracking to the
none button with count 1, and an immediate press of button 1 starts a fresh
streak with count 1; a move away within the interval keeps the count. -/
theorem C5_amended_witness :
    ((process_mouse_wheel 3 ⟨0, 3, 100, 1, 10, 20⟩ ⟨10, 20, 7864320, 160⟩
        WHEEL_VERTICAL_DIRECTION).1.click_button = MOUSE_NOBUTTON)
    ∧ ((process_button_pressed 500
          (process_mouse_wheel 3 ⟨0, 3, 100, 1, 10, 20⟩ ⟨10, 20, 7864320, 160⟩
            WHEEL_VERTICAL_DIRECTION).1 ⟨10, 20, 0, 170⟩ 1).1.click_count = 1)
    ∧ ((process_mouse_moved 500 ⟨0, 3, 100, 1, 10, 20⟩ ⟨30, 40, 0, 160⟩).1.click_count = 3) := by
  have h := C5_amended_spec 500 3 ⟨0, 3, 100, 1, 10, 20⟩ ⟨10, 20, 7864320, 160⟩
      ⟨10, 20, 0, 170⟩ WHEEL_VERTICAL_DIRECTION ⟨0, 3, 100, 1, 10, 20⟩ ⟨30, 40, 0, 160⟩ 1
      (by decide) (by decide) (by decide)
  refine ⟨h.1.2, h.2.1, ?_⟩
  rw [h.2.2 (by decide)]
  decide

/-- Retyping an event leaves the mouse x payload read unchanged. -/
@[simp] theorem UioEvent.mouseX_retype (ev : UioEvent) (t : EventType) :
    UioEvent.mouseX { ev with type := t } = ev.mouseX := by
  cases ev with
  | mk ty ti ma da => cases da <;> rfl

/-- Retyping an event leaves the mouse y payload read unchanged. -/
@[simp] theorem UioEvent.mouseY_retype (ev : UioEvent) (t : EventType) :
    UioEvent.mouseY { ev with type := t } = ev.mouseY := by
  cases ev with
  | mk ty ti ma da => cases da <;> rfl

/-- Retyping an event leaves the mouse button payload read unchanged. -/
@[simp] theorem UioEvent.mouseButton_retype (ev : UioEvent) (t : EventType) :
    UioEvent.mouseButton { ev with type := t } = ev.mouseButton := by
  cases ev with
  | mk ty ti ma da => cases da <;> rfl

/-- Retyping an event leaves the composed move injection unchanged: the move
request depends only on the payload coordinates. -/
@[simp] theorem moveInput_retype (env : PostEnv) (ev : UioEvent) (t : EventType) :
    moveInput env { ev with type := t } = moveInput env ev := by
  simp [moveInput]

/-- C6: for a mouse button press or release posted with cursor movement, the
composer first issues a synthetic Move injection to the target position and
then the button-event injection, two separate injection calls in that order;
each of the two calls is checked for failure independently: the preliminary
status of the move frame reflects its own SendInput result, and the status
returned by the post reflects the SendInput result of the button call. -/
theorem C6_move_before_button_spec (env : PostEnv) (ev : UioEvent)
    (htype : ev.type = EventType.mousePressed ∨ ev.type = EventType.mouseReleased)
    (hb : ev.mouseButton ≠ MOUSE_NOBUTTON) :
    ∃ buttonInj : INPUT,
      (hook_post_event env true ev).2.2 = [moveInput env ev, buttonInj]
      ∧ buttonInj.dwFlags &&& MOUSEEVENTF_MOVE = 0
      ∧ (post_move_event env true { ev with type := .mouseMoved }).1
          = (if env.sendInput (moveInput env ev) then Status.success else Status.failure)
      ∧ (hook_post_event env true ev).1
          = (if env.sendInput buttonInj then Status.success else Status.failure) := by
  have hmove : (post_move_event env true { ev with type := .mouseMoved }).1
      = (if env.sendInput (moveInput env ev) then Status.success else Status.failure) := by
    simp [post_move_event]
  have hstat : (map_mouse_event env true ev INPUT.zero true).1 = Status.success := by
    rcases htype with ht | ht <;> simp [map_mouse_event, ht, hb]
  have hinner : (map_mouse_event env true ev INPUT.zero true).2.2.2 = [moveInput env ev] := by
    rcases htype with ht | ht <;> simp [map_mouse_event, ht, hb, post_move_event]
  have hflags : (map_mouse_event env true ev INPUT.zero true).2.1.dwFlags
      &&& MOUSEEVENTF_MOVE = 0 := by
    rcases htype with ht | ht <;>
      · simp only [map_mouse_event, ht]
        simp [hb]
        split_ifs <;>
          simp [MOUSEEVENTF_MOVE, MOUSEEVENTF_LEFTDOWN, MOUSEEVENTF_RIGHTDOWN,
            MOUSEEVENTF_MIDDLEDOWN, MOUSEEVENTF_XDOWN, MOUSEEVENTF_LEFTUP,
            MOUSEEVENTF_RIGHTUP, MOUSEEVENTF_MIDDLEUP, MOUSEEVENTF_XUP]
  refine ⟨(map_mouse_event env true ev INPUT.zero true).2.1, ?_, hflags, hmove, ?_⟩
  · rcases htype with ht | ht <;>
      simp [hook_post_event, do_hook_post_event, ht, hstat, hinner]
  · rcases htype with ht | ht <;>
      simp [hook_post_event, do_hook_post_event, ht, hstat]

/-- C6 witness: posting a left-button press with cursor movement issues the
move injection and then the left-down injection, with both frames reporting
success under an always-succeeding injection call. -/
theorem C6_move_before_button_witness :
    ∃ buttonInj : INPUT,
      (hook_post_event testEnv true
          { type := .mousePressed, time := 0, mask := 0,
            data := .mouse { button := 1, clicks := 1, x := 20, y := 30 } }).2.2
        = [moveInput testEnv
            { type := .mousePressed, time := 0, mask := 0,
              data := .mouse { button := 1, clicks := 1, x := 20, y := 30 } }, buttonInj]
      ∧ buttonInj.dwFlags &&& MOUSEEVENTF_MOVE = 0
      ∧ (post_move_event testEnv true
            { type := EventType.mouseMoved, time := 0, mask := 0,
              data := .mouse { button := 1, clicks := 1, x := 20, y := 30 } }).1
          = (if testEnv.sendInput (moveInput testEnv
                { type := .mousePressed, time := 0, mask := 0,
                  data := .mouse { button := 1, clicks := 1, x := 20, y := 30 } })
             then Status.success else Status.failure)
      ∧ (hook_post_event testEnv true
            { type := .mousePressed, time := 0, mask := 0,
              data := .mouse { button := 1, clicks := 1, x := 20, y := 30 } }).1
          = (if testEnv.sendInput buttonInj then Status.success else Status.failure) :=
  C6_move_before_button_spec testEnv
    { type := .mousePressed, time := 0, mask := 0,
      data := .mouse { button := 1, clicks := 1, x := 20, y := 30 } }
    (Or.inl rfl) (by decide)

/-- C7: the claim states the extended-key flag is set whenever shift is held
and the native key is any member of the extended-key table.  The scan
loop fuses the equality test into the loop condition and stops at the first
non-matching entry, so only VK_UP (0x26, the first table entry) ever receives
the flag: with shift held and a key translating to VK_DOWN (0x28, a table
member) the composed request carries no extended-key flag, while VK_UP does. -/
theorem C7_extended_key_underscan_code_bug :
    ((0x28 : Nat) ∈ extend_key_table)
    ∧ ((map_keyboard_event { testEnv with scancode_to_keycode := fun _ => 0x28 }
          { type := .keyPressed, time := 0, mask := MASK_SHIFT_L,
            data := .keyboard { keycode := 57421, rawcode := 0x28, keychar := 0 } }
          INPUT.zero).1 = Status.success)
    ∧ ((map_keyboard_event { testEnv with scancode_to_keycode := fun _ => 0x28 }
          { type := .keyPressed, time := 0, mask := MASK_SHIFT_L,
            data := .keyboard { keycode := 57421, rawcode := 0x28, keychar := 0 } }
          INPUT.zero).2.dwFlags &&& KEYEVENTF_EXTENDEDKEY = 0)
    ∧ ((map_keyboard_event { testEnv with scancode_to_keycode := fun _ => 0x26 }
          { type := .keyPressed, time := 0, mask := MASK_SHIFT_L,
            data := .keyboard { keycode := 57416, rawcode := 0x26, keychar := 0 } }
          INPUT.zero).2.dwFlags &&& KEYEVENTF_EXTENDEDKEY = KEYEVENTF_EXTENDEDKEY) := by
  decide

/-- C8: posting a MousePressed or MouseReleased whose button is the none
sentinel, or posting a non-synthesizable event type (HookEnabled,
HookDisabled, KeyTyped, MouseClicked), returns the non-success status the
code uses for unsupported events (UIOHOOK_FAILURE) and attempts no injection
call, through either posting entry point (any move_mouse). -/
theorem C8_unsupported_event_spec (env : PostEnv) (ev : UioEvent) (move_mouse : Bool)
    (h : (ev.type = EventType.mousePressed ∧ ev.mouseButton = MOUSE_NOBUTTON)
       ∨ (ev.type = EventType.mouseReleased ∧ ev.mouseButton = MOUSE_NOBUTTON)
       ∨ ev.type = EventType.hookEnabled ∨ ev.type = EventType.hookDisabled
       ∨ ev.type = EventType.keyTyped ∨ ev.type = EventType.mouseClicked) :
    (do_hook_post_event env true ev move_mouse).1 = Status.failure
    ∧ (do_hook_post_event env true ev move_mouse).2.2 = [] := by
  rcases h with ⟨ht, hbtn⟩ | ⟨ht, hbtn⟩ | ht | ht | ht | ht <;>
    simp_all [do_hook_post_event, map_mouse_event]

/-- C8 witness: posting a MousePressed with button = none fails without any
injection attempt. -/
theorem C8_unsupported_event_witness :
    (do_hook_post_event testEnv true
        { type := .mousePressed, time := 0, mask := 0,
          data := .mouse { button := 0, clicks := 1, x := 5, y := 6 } } true).1
      = Status.failure
    ∧ (do_hook_post_event testEnv true
        { type := .mousePressed, time := 0, mask := 0,
          data := .mouse { button := 0, clicks := 1, x := 5, y := 6 } } true).2.2 = [] :=
  C8_unsupported_event_spec testEnv
    { type := .mousePressed, time := 0, mask := 0,
      data := .mouse { button := 0, clicks := 1, x := 5, y := 6 } } true
    (Or.inl ⟨rfl, rfl⟩)

/-- On a nonnegative coordinate and a positive screen dimension whose scaled
result stays inside the 32-bit range of the API, MulDiv with the 2^16
injection range computes the round-to-nearest linear rescale, the floor of
(c * 2^16 + d/2) / d. -/
theorem mulDiv_injection_eq (c d : Int) (hc : 0 ≤ c) (hd : 0 < d)
    (hov : c * 2 ^ 16 + d / 2 < 2147483648 * d) :
    MulDiv c (2 ^ 16) d = (c * 2 ^ 16 + d / 2) / d := by
  have h1 : ¬ d = 0 := by omega
  have h2 : ¬ d < 0 := by omega
  simp only [MulDiv, if_neg h1, if_neg h2]
  have hp : 0 ≤ c * 2 ^ 16 := by positivity
  rw [if_pos hp]
  have htd2 : Int.tdiv d 2 = d / 2 := Int.tdiv_eq_ediv (by omega) (by omega)
  rw [htd2]
  have hnum : 0 ≤ c * 2 ^ 16 + d / 2 :=
    add_nonneg hp (Int.ediv_nonneg (le_of_lt hd) (by omega))
  have htd : Int.tdiv (c * 2 ^ 16 + d / 2) d = (c * 2 ^ 16 + d / 2) / d :=
    Int.tdiv_eq_ediv hnum (le_of_lt hd)
  rw [htd]
  have hrlt : (c * 2 ^ 16 + d / 2) / d < 2147483648 :=
    (Int.ediv_lt_iff_lt_mul hd).mpr (by linarith [hov])
  have hrge : 0 ≤ (c * 2 ^ 16 + d / 2) / d := Int.ediv_nonneg hnum (le_of_lt hd)
  have h3 : ¬ ((c * 2 ^ 16 + d / 2) / d > 2147483647) := not_lt.mpr (by linarith [hrlt])
  have h4 : ¬ ((c * 2 ^ 16 + d / 2) / d < -2147483647) := not_lt.mpr (by linarith [hrge])
  rw [if_neg (not_or.mpr ⟨h3, h4⟩)]

/-- C9: for absolute-positioning synthesis the injected coordinates are
computed by, in this order: adding the absolute value of the most negative
display coordinate to each logical coordinate, incrementing a coordinate that
is exactly 0 by one unit, then linearly rescaling as
logical * INJECTION_RANGE / screen_dimension with INJECTION_RANGE = 2^16 (the
rescale division rounds to nearest, as the injection API does). -/
theorem C9_normalize_coordinates_spec (x y w h : Int) (lnc : LARGESTNEGATIVECOORDINATES)
    (hw : 0 < w) (hh : 0 < h)
    (hx0 : 0 ≤ spec_nudge (spec_offset x lnc.left))
    (hy0 : 0 ≤ spec_nudge (spec_offset y lnc.top))
    (hxov : spec_nudge (spec_offset x lnc.left) * 2 ^ 16 + w / 2 < 2147483648 * w)
    (hyov : spec_nudge (spec_offset y lnc.top) * 2 ^ 16 + h / 2 < 2147483648 * h) :
    (normalize_coordinates x y w h lnc
        = { x := spec_rescale (spec_nudge (spec_offset x lnc.left)) w,
            y := spec_rescale (spec_nudge (spec_offset y lnc.top)) h })
    ∧ spec_rescale (spec_nudge (spec_offset x lnc.left)) w
        = (spec_nudge (spec_offset x lnc.left) * 2 ^ 16 + w / 2) / w
    ∧ spec_rescale (spec_nudge (spec_offset y lnc.top)) h
        = (spec_nudge (spec_offset y lnc.top) * 2 ^ 16 + h / 2) / h := by
  refine ⟨?_, mulDiv_injection_eq _ _ hx0 hw hxov, mulDiv_injection_eq _ _ hy0 hh hyov⟩
  simp [normalize_coordinates, get_absolute_coordinate, spec_rescale, spec_nudge,
    spec_offset, MAX_WINDOWS_COORD_VALUE]

/-- C9 witness: the coordinate (-50, 30) on a 1920 x 1080 virtual screen whose
most negative display coordinates are (-100, -200) goes through offset, nudge
and rescale in that order. -/
theorem C9_normalize_coordinates_witness :
    ((0:Int) < 1920) ∧ ((0:Int) < 1080)
    ∧ (0 ≤ spec_nudge (spec_offset (-50) (-100)))
    ∧ (0 ≤ spec_nudge (spec_offset 30 (-200)))
    ∧ (spec_nudge (spec_offset (-50) (-100)) * 2 ^ 16 + 1920 / 2 < 2147483648 * 1920)
    ∧ (spec_nudge (spec_offset 30 (-200)) * 2 ^ 16 + 1080 / 2 < 2147483648 * 1080)
    ∧ normalize_coordinates (-50) 30 1920 1080 { left := -100, top := -200 }
        = { x := spec_rescale (spec_nudge (spec_offset (-50) (-100))) 1920,
            y := spec_rescale (spec_nudge (spec_offset 30 (-200))) 1080 } :=
  ⟨by decide, by decide, by decide, by decide, by decide, by decide,
   (C9_normalize_coordinates_spec (-50) 30 1920 1080 { left := -100, top := -200 }
      (by decide) (by decide) (by decide) (by decide) (by decide) (by decide)).1⟩

/-- C10: the claim states the event structure of the caller is unchanged on return
from the posting entry points, the temporary retyping to MouseMoved being
undone to the original type.  The code violates it for MouseReleased posted
with cursor movement: after the preliminary move it restores the type to
EVENT_MOUSE_PRESSED (a copy of the pressed branch) instead of
EVENT_MOUSE_RELEASED, so the event of the caller leaves as MousePressed. -/
theorem C10_released_retype_code_bug :
    ((hook_post_event testEnv true
        { type := .mouseReleased, time := 0, mask := 0,
          data := .mouse { button := 1, clicks := 1, x := 20, y := 30 } }).2.1.type
      = EventType.mousePressed)
    ∧ EventType.mousePressed ≠ EventType.mouseReleased := by
  decide

example : elapsedLong 1000 400 = 600 := by decide

example : elapsedLong 2200000100 100 = -2094967296 := by decide

example :
    (process_button_pressed 500 ⟨0, 1, 0, 1, 3, 4⟩ ⟨3, 4, 0, 200⟩ 1).1.click_count = 2 := by
  decide

example :
    (process_button_pressed 500 ⟨0, 1, 0, 1, 3, 4⟩ ⟨3, 4, 0, 700⟩ 1).1.click_count = 1 := by
  decide

end LibUioHook
